import Mathlib

/-!
The callback pipeline of `iss.js` (iss_spotter).

A shallow embedding of `src/iss.js`.  The module chains three HTTP lookups
(public IP, geolocation of that IP, ISS fly-over times for the coordinates)
with Node-style callbacks `(error, result)`.

* JavaScript values are the inductive `JsVal`.
* The network and the two JavaScript built-ins the module relies on
  (`JSON.parse` and the number-to-string conversion) are fields of `Env`.
* A call of one of the four functions yields a `Run`: the events it causes,
  in order, and the exception (if any) that travels back to its caller.
-/

namespace IssSpotter

/-! ## JavaScript values -/

/-- A finite decimal number `mantissa * 10 ^ exponent`.  The module never
computes with numbers: it stores them and interpolates them into a URL. -/
structure JsNum where
  mantissa : Int
  exponent : Int
deriving DecidableEq, Repr

/-- The JavaScript values that reach `iss.js`: the JSON values, `undefined`
and error objects (`name`, `message`).  An object is the list of its own
properties, one entry per key. -/
inductive JsVal where
  | undefined
  | null
  | bool (b : Bool)
  | num (x : JsNum)
  | str (s : String)
  | arr (items : List JsVal)
  | obj (fields : List (String × JsVal))
  | err (name : String) (message : String)
deriving Repr

/-- JavaScript truthiness, the test of `if (error)`. -/
def truthy : JsVal → Bool
  | .undefined => false
  | .null => false
  | .bool b => b
  | .num x => x.mantissa != 0
  | .str s => s != ""
  | .arr _ => true
  | .obj _ => true
  | .err _ _ => true

/-- An HTTP response as far as the module reads it: `response.statusCode`. -/
structure Response where
  statusCode : Nat
deriving DecidableEq, Repr

/-- The three arguments `request` hands to its callback.  `response` is
`none` when it is `undefined`. -/
structure RequestResult where
  error : JsVal
  response : Option Response
  body : JsVal

/-- How the promise returned by `request-promise` settles. -/
inductive PromiseOutcome where
  | resolved (body : JsVal)
  | rejected (reason : JsVal)

/-- Everything outside the module.
* `network url`: what the `request` package reports for a GET of `url`;
* `networkPromise url`: how the `request-promise` package settles for `url`;
* `jsonParse text`: `JSON.parse`, returning the parsed value or the message
  of the `SyntaxError` it throws;
* `numToString`: the number-to-string conversion of template literals. -/
structure Env where
  network : String → RequestResult
  networkPromise : String → PromiseOutcome
  jsonParse : String → Except String JsVal
  numToString : JsNum → String

mutual
/-- JavaScript `ToString`, used by template literals, by `+` with a string
operand and by `JSON.parse` on its argument. -/
def toStr (env : Env) : JsVal → String
  | .undefined => "undefined"
  | .null => "null"
  | .bool b => if b then "true" else "false"
  | .num x => env.numToString x
  | .str s => s
  | .arr items => joinItems env items
  | .obj _ => "[object Object]"
  | .err name message =>
    if message = "" then name else if name = "" then message else name ++ ": " ++ message
/-- The text of an array: `Array.prototype.join` with a comma; `null` and
`undefined` elements contribute the empty string. -/
def joinItems (env : Env) : List JsVal → String
  | [] => ""
  | [x] => itemStr env x
  | x :: y :: rest => itemStr env x ++ "," ++ joinItems env (y :: rest)
/-- The text of one array element inside `join`. -/
def itemStr (env : Env) : JsVal → String
  | .undefined => ""
  | .null => ""
  | .bool b => if b then "true" else "false"
  | .num x => env.numToString x
  | .str s => s
  | .arr items => joinItems env items
  | .obj _ => "[object Object]"
  | .err name message =>
    if message = "" then name else if name = "" then message else name ++ ": " ++ message
end

/-- Reading property `key` of a value, for the keys the module reads
(`statusCode` apart): `ip`, `latitude`, `longitude`, `longtitude`,
`response`, none of which is defined on a built-in prototype.  Reading a
property of `undefined` or `null` throws a `TypeError`; a missing property
reads as `undefined`. -/
def getProp (env : Env) (v : JsVal) (key : String) : Except JsVal JsVal :=
  match v with
  | .undefined => .error (.err "TypeError" ("Cannot read property " ++ key ++ " of " ++ toStr env v))
  | .null => .error (.err "TypeError" ("Cannot read property " ++ key ++ " of " ++ toStr env v))
  | .obj fields => .ok ((fields.lookup key).getD .undefined)
  | _ => .ok .undefined

/-! ## Events and runs -/

/-- What a call of the module does that can be observed from outside. -/
inductive Event where
  /-- The call `request(url, ...)` was issued. -/
  | request (url : String)
  /-- The call `requestCoord(url)` was issued. -/
  | requestCoord (url : String)
  /-- The callback of the caller was invoked with `(error, result)`. -/
  | callback (error : JsVal) (result : JsVal)
  /-- An exception left a request callback or a promise chain unhandled. -/
  | uncaught (exception : JsVal)

/-- The outcome of a synchronous call: the events caused so far and after
it, in order, and the exception thrown back to the caller, if any. -/
structure Run where
  events : List Event
  thrown : Option JsVal

/-- A Node-style callback `(error, result) => ...`. -/
abbrev Callback := JsVal → JsVal → Run

/-- The statement `throw e` (an exception raised by an expression). -/
def Run.throw (e : JsVal) : Run := ⟨[], some e⟩

/-- The events of a run that nobody awaits: an exception it throws is
unhandled. -/
def settle (r : Run) : List Event :=
  match r with
  | ⟨events, none⟩ => events
  | ⟨events, some e⟩ => events ++ [Event.uncaught e]

/-- The `request` package: `request(url, cb)` issues the request and
returns; `cb(error, response, body)` runs later, on its own. -/
def request (env : Env) (url : String) (cb : JsVal → Option Response → JsVal → Run) : Run :=
  let r := env.network url
  ⟨Event.request url :: settle (cb r.error r.response r.body), none⟩

/-- The chain `requestCoord(url).then(onFulfilled).catch(onRejected)`:
an exception thrown by `onFulfilled` is handed to `onRejected`; one thrown
by `onRejected` is an unhandled rejection. -/
def requestCoordThenCatch (env : Env) (url : String)
    (onFulfilled : JsVal → Run) (onRejected : JsVal → Run) : Run :=
  ⟨Event.requestCoord url ::
    (match env.networkPromise url with
     | .resolved body =>
       match onFulfilled body with
       | ⟨events, none⟩ => events
       | ⟨events, some e⟩ => events ++ settle (onRejected e)
     | .rejected reason => settle (onRejected reason)), none⟩

/-- The `RequestError` of the `request-promise` package, which is not part
of the repository: when the underlying request reports the transport error
`cause`, the promise is rejected with a new object of this shape, whose
`message` is the text of `cause` and whose `cause` and `error` are `cause`
itself (the fields `options` and `response` are left out). -/
def requestError (env : Env) (cause : JsVal) : JsVal :=
  .obj [("name", .str "RequestError"), ("message", .str (toStr env cause)),
    ("cause", cause), ("error", cause)]

/-- The caller's callback as an observer: it records its two arguments and
returns. -/
def record : Callback := fun error result => ⟨[Event.callback error result], none⟩

/-- The callback invocations among the events, in order. -/
def callbackArgs : List Event → List (JsVal × JsVal)
  | [] => []
  | Event.callback e r :: rest => (e, r) :: callbackArgs rest
  | _ :: rest => callbackArgs rest

/-- The `(error, result)` pairs a run passes to the caller's callback. -/
def Run.calls (r : Run) : List (JsVal × JsVal) := callbackArgs r.events

/-! ## The module -/

/-- The constant `URL` of line 11. -/
def URL : String := "https://api.ipify.org?format=json"

/-- The function `fetchMyIP` (lines 12-35). -/
def fetchMyIP (env : Env) (callback : Callback) : Run :=
  request env URL fun error response body =>
    if truthy error then
      callback error .null
    else
      match response with
      | none => Run.throw (.err "TypeError" "Cannot read property statusCode of undefined")
      | some response =>
        if response.statusCode ≠ 200 then
          let msg := "Status Code " ++ toString response.statusCode ++
            " when fetching IP. Response: " ++ toStr env body
          callback (.err "Error" msg) .null
        else
          match env.jsonParse (toStr env body) with
          | .error m => Run.throw (.err "SyntaxError" m)
          | .ok parsed =>
            match getProp env parsed "ip" with
            | .error e => Run.throw e
            | .ok IP => callback .null IP

/-- The function `fetchCoordsByIP` (lines 37-56). -/
def fetchCoordsByIP (env : Env) (ip : JsVal) (callback : Callback) : Run :=
  let curl := "https://freegeoip.app/json/" ++ toStr env ip
  requestCoordThenCatch env curl
    (fun response =>
      match env.jsonParse (toStr env response) with
      | .error m => Run.throw (.err "SyntaxError" m)
      | .ok parsed =>
        match getProp env parsed "latitude" with
        | .error e => Run.throw e
        | .ok CoordLatitu =>
          match env.jsonParse (toStr env response) with
          | .error m => Run.throw (.err "SyntaxError" m)
          | .ok parsed2 =>
            match getProp env parsed2 "longitude" with
            | .error e => Run.throw e
            | .ok CoordLongtitu =>
              let data := JsVal.obj [("latitude", CoordLatitu), ("longtitude", CoordLongtitu)]
              callback .null data)
    (fun error => callback error .null)

/-- The function `fetchISSFlyOverTimes` (lines 69-94). -/
def fetchISSFlyOverTimes (env : Env) (coords : JsVal) (callback : Callback) : Run :=
  match getProp env coords "latitude" with
  | .error e => Run.throw e
  | .ok lat =>
    match getProp env coords "longtitude" with
    | .error e => Run.throw e
    | .ok lon =>
      let URL := "https://iss-pass.herokuapp.com/json/?lat=" ++ toStr env lat ++
        "&lon=" ++ toStr env lon
      request env URL fun error response body =>
        if truthy error then
          callback error .null
        else
          match response with
          | none => Run.throw (.err "TypeError" "Cannot read property statusCode of undefined")
          | some response =>
            if response.statusCode ≠ 200 then
              let msg := "Status Code " ++ toString response.statusCode ++
                " when fetching IP. Response: " ++ toStr env body
              callback (.err "Error" msg) .null
            else
              match env.jsonParse (toStr env body) with
              | .error m => Run.throw (.err "SyntaxError" m)
              | .ok parsed =>
                match getProp env parsed "response" with
                | .error e => Run.throw e
                | .ok array => callback .null array

/-- The function `nextISSTimesForMyLocation` (lines 105-122). -/
def nextISSTimesForMyLocation (env : Env) (callback : Callback) : Run :=
  fetchMyIP env fun err ip =>
    if truthy err then
      callback err .null
    else
      fetchCoordsByIP env ip fun err loc =>
        if truthy err then
          callback err .null
        else
          fetchISSFlyOverTimes env loc fun err nextPasses =>
            if truthy err then
              callback err .null
            else
              callback .null nextPasses

/-- The URL `fetchCoordsByIP` requests for `ip` (line 38). -/
def coordsURL (env : Env) (ip : JsVal) : String :=
  "https://freegeoip.app/json/" ++ toStr env ip

/-- The URL `fetchISSFlyOverTimes` requests when the two values it reads
from `coords` are `lat` and `lon` (line 70). -/
def flyOverURL (env : Env) (lat lon : JsVal) : String :=
  "https://iss-pass.herokuapp.com/json/?lat=" ++ toStr env lat ++ "&lon=" ++ toStr env lon

/-- The text `needle` occurs in the text `hay`. -/
def Contains (hay needle : String) : Prop :=
  ∃ front back : String, hay = front ++ needle ++ back


/-- The events of `requestCoord(url).then(f).catch(g)` after the request
when the promise resolves and `f` ends in the call `cb(null, data)`. -/
def thenEvents (cb : Callback) (data : JsVal) : List Event :=
  match cb .null data with
  | ⟨events, none⟩ => events
  | ⟨events, some e⟩ => events ++ settle (cb e .null)

/-! ## Sample environments -/

/-- A number-to-string conversion for the sample environments: plain
decimal text, with as many digits after the point as the exponent asks. -/
def decimalText (x : JsNum) : String :=
  match x.exponent with
  | .ofNat e => toString (x.mantissa * 10 ^ e)
  | .negSucc e =>
    let scale := 10 ^ (e + 1)
    let whole := x.mantissa.natAbs / scale
    let frac := toString (x.mantissa.natAbs % scale)
    (if x.mantissa < 0 then "-" else "") ++ toString whole ++ "." ++
      String.mk (List.replicate (e + 1 - frac.length) '0') ++ frac

def sampleIpBody : String := "\x7b\"ip\":\"1.2.3.4\"\x7d"
def sampleGeoBody : String := "\x7b\"latitude\":40.7,\"longitude\":-74\x7d"
def sampleFlyBody : String :=
  "\x7b\"message\":\"success\",\"response\":[\x7b\"risetime\":1600000000,\"duration\":600\x7d,\x7b\"risetime\":1600050000,\"duration\":540\x7d]\x7d"

def samplePasses : JsVal :=
  .arr [.obj [("risetime", .num ⟨1600000000, 0⟩), ("duration", .num ⟨600, 0⟩)],
        .obj [("risetime", .num ⟨1600050000, 0⟩), ("duration", .num ⟨540, 0⟩)]]

/-- The table of `JSON.parse` on the texts of the sample environments; any
other text is rejected. -/
def sampleParse (text : String) : Except String JsVal :=
  if text = sampleIpBody then .ok (.obj [("ip", .str "1.2.3.4")])
  else if text = sampleGeoBody then
    .ok (.obj [("latitude", .num ⟨407, -1⟩), ("longitude", .num ⟨-74, 0⟩)])
  else if text = sampleFlyBody then
    .ok (.obj [("message", .str "success"), ("response", samplePasses)])
  else if text = "null" then .ok .null
  else .error "Unexpected token"

/-- An environment that answers the IP lookup with `ipResult`, the
geolocation lookup with `geo` and every other `request` with `flyResult`. -/
def sampleEnv (ipResult : RequestResult) (geo : PromiseOutcome) (flyResult : RequestResult) : Env where
  network := fun url => if url = URL then ipResult else flyResult
  networkPromise := fun _ => geo
  jsonParse := sampleParse
  numToString := decimalText

/-- Every lookup succeeds. -/
def okEnv : Env :=
  sampleEnv ⟨.null, some ⟨200⟩, .str sampleIpBody⟩ (.resolved (.str sampleGeoBody))
    ⟨.null, some ⟨200⟩, .str sampleFlyBody⟩


/-- The coordinates the geolocation stage builds from `sampleGeoBody`. -/
def sampleCoords : JsVal :=
  .obj [("latitude", .num ⟨407, -1⟩), ("longtitude", .num ⟨-74, 0⟩)]

/-- Coordinates with the keys the documentation names: `latitude` and
`longitude`. -/
def documentedCoords : JsVal :=
  .obj [("latitude", .num ⟨407, -1⟩), ("longitude", .num ⟨-74, 0⟩)]

def sampleIpOk : RequestResult := ⟨.null, some ⟨200⟩, .str sampleIpBody⟩
def sampleFlyOk : RequestResult := ⟨.null, some ⟨200⟩, .str sampleFlyBody⟩
def sampleGeoOk : PromiseOutcome := .resolved (.str sampleGeoBody)

/-- A transport error as the `request` package reports it. -/
def offlineError : JsVal := .err "Error" "getaddrinfo ENOTFOUND"

/-- The arguments of a request callback after a transport failure. -/
def sampleOffline : RequestResult := ⟨offlineError, none, .undefined⟩

/-- A response with status 503 and a plain-text body. -/
def sampleUnavailable : RequestResult := ⟨.null, some ⟨503⟩, .str "Service Unavailable"⟩

/-- A response with status 200 whose body is not JSON. -/
def sampleHtml : RequestResult := ⟨.null, some ⟨200⟩, .str "<html>maintenance</html>"⟩

/-- The IP lookup fails at the transport level. -/
def offlineEnv : Env := sampleEnv sampleOffline sampleGeoOk sampleFlyOk

/-- The geolocation lookup fails at the transport level: the promise is
rejected with the `RequestError` that wraps `offlineError` (the text of an
error object is the same in every environment). -/
def geoOfflineEnv : Env :=
  sampleEnv sampleIpOk (.rejected (requestError okEnv offlineError)) sampleFlyOk

/-- The fly-over lookup fails at the transport level. -/
def flyOfflineEnv : Env := sampleEnv sampleIpOk sampleGeoOk sampleOffline

/-- The geolocation service answers 500 with body `server error`, which
`request-promise` turns into a rejection. -/
def geo500Env : Env :=
  sampleEnv sampleIpOk (.rejected (.err "StatusCodeError" "500 - \"server error\"")) sampleFlyOk

/-- The same answer, had the status been left unchecked: the promise
resolves with the body text. -/
def geo500BodyEnv : Env :=
  sampleEnv sampleIpOk (.resolved (.str "server error")) sampleFlyOk

/-- Both `request` lookups are answered 503. -/
def unavailableEnv : Env := sampleEnv sampleUnavailable sampleGeoOk sampleUnavailable

/-- Both `request` lookups are answered 200 with a body that is not JSON. -/
def htmlEnv : Env := sampleEnv sampleHtml sampleGeoOk sampleHtml

/-- The first two lookups succeed; the fly-over lookup is answered 200 with
a body that is not JSON. -/
def flyHtmlEnv : Env := sampleEnv sampleIpOk sampleGeoOk sampleHtml

/-! ## How each stage uses its callback -/

/-- Whatever its callback, `fetchMyIP` either hands one fixed pair to it or
lets one fixed exception escape. -/
theorem fetchMyIP_factor (env : Env) :
    (∃ e r, ((truthy e = true ∧ r = .null) ∨ e = .null) ∧
      ∀ cb : Callback, fetchMyIP env cb = ⟨Event.request URL :: settle (cb e r), none⟩) ∨
    (∃ x, ∀ cb : Callback, fetchMyIP env cb = ⟨[Event.request URL, Event.uncaught x], none⟩) := by
  rcases hnet : env.network URL with ⟨err, resp, body⟩
  by_cases herr : truthy err = true
  · exact Or.inl ⟨err, .null, Or.inl ⟨herr, rfl⟩, fun cb => by
      simp [fetchMyIP, request, hnet, herr]⟩
  · cases resp with
    | none =>
      exact Or.inr ⟨.err "TypeError" "Cannot read property statusCode of undefined", fun cb => by
        simp [fetchMyIP, request, hnet, herr, settle, Run.throw]⟩
    | some resp =>
      by_cases hcode : resp.statusCode = 200
      · cases hparse : env.jsonParse (toStr env body) with
        | error m =>
          exact Or.inr ⟨.err "SyntaxError" m, fun cb => by
            simp [fetchMyIP, request, hnet, herr, hcode, hparse, settle, Run.throw]⟩
        | ok parsed =>
          cases hget : getProp env parsed "ip" with
          | error x =>
            exact Or.inr ⟨x, fun cb => by
              simp [fetchMyIP, request, hnet, herr, hcode, hparse, hget, settle, Run.throw]⟩
          | ok IP =>
            exact Or.inl ⟨.null, IP, Or.inr rfl, fun cb => by
              simp [fetchMyIP, request, hnet, herr, hcode, hparse, hget]⟩
      · exact Or.inl ⟨.err "Error" ("Status Code " ++ toString resp.statusCode ++
            " when fetching IP. Response: " ++ toStr env body), .null, Or.inl ⟨rfl, rfl⟩, fun cb => by
          simp [fetchMyIP, request, hnet, herr, hcode]⟩

theorem fetchCoordsByIP_factor (env : Env) (ip : JsVal) :
    (∃ lat lon, ∀ cb : Callback, fetchCoordsByIP env ip cb =
        ⟨Event.requestCoord (coordsURL env ip) ::
          thenEvents cb (.obj [("latitude", lat), ("longtitude", lon)]), none⟩) ∨
    (∃ e, ∀ cb : Callback, fetchCoordsByIP env ip cb =
        ⟨Event.requestCoord (coordsURL env ip) :: settle (cb e .null), none⟩) := by
  cases hnet : env.networkPromise (coordsURL env ip) with
  | rejected reason =>
    exact Or.inr ⟨reason, fun cb => by
      simp only [coordsURL] at hnet
      simp [fetchCoordsByIP, requestCoordThenCatch, hnet, coordsURL]⟩
  | resolved body =>
    simp only [coordsURL] at hnet
    cases hparse : env.jsonParse (toStr env body) with
    | error m =>
      exact Or.inr ⟨.err "SyntaxError" m, fun cb => by
        simp [fetchCoordsByIP, requestCoordThenCatch, hnet, coordsURL, hparse, Run.throw]⟩
    | ok parsed =>
      cases hlat : getProp env parsed "latitude" with
      | error x =>
        exact Or.inr ⟨x, fun cb => by
          simp [fetchCoordsByIP, requestCoordThenCatch, hnet, coordsURL, hparse, hlat, Run.throw]⟩
      | ok lat =>
        cases hlon : getProp env parsed "longitude" with
        | error x =>
          exact Or.inr ⟨x, fun cb => by
            simp [fetchCoordsByIP, requestCoordThenCatch, hnet, coordsURL, hparse, hlat, hlon,
              Run.throw]⟩
        | ok lon =>
          exact Or.inl ⟨lat, lon, fun cb => by
            simp [fetchCoordsByIP, requestCoordThenCatch, hnet, coordsURL, hparse, hlat, hlon,
              thenEvents]⟩

theorem fetchISSFlyOverTimes_factor (env : Env) (coords : JsVal) :
    (∃ x, ∀ cb : Callback, fetchISSFlyOverTimes env coords cb = Run.throw x) ∨
    (∃ url e r, ((truthy e = true ∧ r = .null) ∨ e = .null) ∧
      ∀ cb : Callback, fetchISSFlyOverTimes env coords cb =
        ⟨Event.request url :: settle (cb e r), none⟩) ∨
    (∃ url x, ∀ cb : Callback, fetchISSFlyOverTimes env coords cb =
        ⟨[Event.request url, Event.uncaught x], none⟩) := by
  cases hlat : getProp env coords "latitude" with
  | error x => exact Or.inl ⟨x, fun cb => by simp [fetchISSFlyOverTimes, hlat]⟩
  | ok lat =>
    cases hlon : getProp env coords "longtitude" with
    | error x => exact Or.inl ⟨x, fun cb => by simp [fetchISSFlyOverTimes, hlat, hlon]⟩
    | ok lon =>
      refine Or.inr ?_
      rcases hnet : env.network (flyOverURL env lat lon) with ⟨err, resp, body⟩
      simp only [flyOverURL] at hnet
      by_cases herr : truthy err = true
      · exact Or.inl ⟨flyOverURL env lat lon, err, .null, Or.inl ⟨herr, rfl⟩, fun cb => by
          simp [fetchISSFlyOverTimes, hlat, hlon, request, hnet, herr, flyOverURL]⟩
      · cases resp with
        | none =>
          exact Or.inr ⟨flyOverURL env lat lon,
            .err "TypeError" "Cannot read property statusCode of undefined", fun cb => by
            simp [fetchISSFlyOverTimes, hlat, hlon, request, hnet, herr, settle, Run.throw,
              flyOverURL]⟩
        | some resp =>
          by_cases hcode : resp.statusCode = 200
          · cases hparse : env.jsonParse (toStr env body) with
            | error m =>
              exact Or.inr ⟨flyOverURL env lat lon, .err "SyntaxError" m, fun cb => by
                simp [fetchISSFlyOverTimes, hlat, hlon, request, hnet, herr, hcode, hparse,
                  settle, Run.throw, flyOverURL]⟩
            | ok parsed =>
              cases hget : getProp env parsed "response" with
              | error x =>
                exact Or.inr ⟨flyOverURL env lat lon, x, fun cb => by
                  simp [fetchISSFlyOverTimes, hlat, hlon, request, hnet, herr, hcode, hparse,
                    hget, settle, Run.throw, flyOverURL]⟩
              | ok array =>
                exact Or.inl ⟨flyOverURL env lat lon, .null, array, Or.inr rfl, fun cb => by
                  simp [fetchISSFlyOverTimes, hlat, hlon, request, hnet, herr, hcode, hparse,
                    hget, flyOverURL]⟩
          · exact Or.inl ⟨flyOverURL env lat lon, .err "Error" ("Status Code " ++
                toString resp.statusCode ++ " when fetching IP. Response: " ++ toStr env body),
              .null, Or.inl ⟨rfl, rfl⟩, fun cb => by
              simp [fetchISSFlyOverTimes, hlat, hlon, request, hnet, herr, hcode, flyOverURL]⟩

theorem fetchCoordsByIP_resolved (env : Env) (ip body parsed lat lon : JsVal)
    (hnet : env.networkPromise (coordsURL env ip) = .resolved body)
    (hparse : env.jsonParse (toStr env body) = .ok parsed)
    (hlat : getProp env parsed "latitude" = .ok lat)
    (hlon : getProp env parsed "longitude" = .ok lon) (cb : Callback) :
    fetchCoordsByIP env ip cb =
      ⟨Event.requestCoord (coordsURL env ip) ::
        thenEvents cb (.obj [("latitude", lat), ("longtitude", lon)]), none⟩ := by
  simp only [coordsURL] at hnet
  simp [fetchCoordsByIP, requestCoordThenCatch, hnet, coordsURL, hparse, hlat, hlon, thenEvents]

theorem fetchCoordsByIP_rejected (env : Env) (ip e : JsVal)
    (hnet : env.networkPromise (coordsURL env ip) = .rejected e) (cb : Callback) :
    fetchCoordsByIP env ip cb =
      ⟨Event.requestCoord (coordsURL env ip) :: settle (cb e .null), none⟩ := by
  simp only [coordsURL] at hnet
  simp [fetchCoordsByIP, requestCoordThenCatch, hnet, coordsURL]

theorem fetchCoordsByIP_unparsable (env : Env) (ip body : JsVal) (m : String)
    (hnet : env.networkPromise (coordsURL env ip) = .resolved body)
    (hparse : env.jsonParse (toStr env body) = .error m) (cb : Callback) :
    fetchCoordsByIP env ip cb =
      ⟨Event.requestCoord (coordsURL env ip) :: settle (cb (.err "SyntaxError" m) .null), none⟩ := by
  simp only [coordsURL] at hnet
  simp [fetchCoordsByIP, requestCoordThenCatch, hnet, coordsURL, hparse, Run.throw]

theorem fetchISSFlyOverTimes_request (env : Env) (coords lat lon : JsVal)
    (hlat : getProp env coords "latitude" = .ok lat)
    (hlon : getProp env coords "longtitude" = .ok lon) (cb : Callback) :
    ∃ rest, fetchISSFlyOverTimes env coords cb =
      ⟨Event.request (flyOverURL env lat lon) :: rest, none⟩ := by
  simp [fetchISSFlyOverTimes, hlat, hlon, request, flyOverURL]

theorem truthy_null : truthy .null = false := rfl

theorem toStr_str (env : Env) (s : String) : toStr env (.str s) = s := by
  simp [toStr]

theorem getProp_obj (env : Env) (fields : List (String × JsVal)) (key : String) :
    getProp env (.obj fields) key = .ok ((fields.lookup key).getD .undefined) := rfl

theorem getProp_latitude (env : Env) (lat lon : JsVal) :
    getProp env (.obj [("latitude", lat), ("longtitude", lon)]) "latitude" = .ok lat := rfl

theorem getProp_longtitude (env : Env) (lat lon : JsVal) :
    getProp env (.obj [("latitude", lat), ("longtitude", lon)]) "longtitude" = .ok lon := rfl

theorem contains_middle (a b c : String) : Contains (a ++ b ++ c) b := ⟨a, c, rfl⟩

theorem contains_end (a b : String) : Contains (a ++ b) b :=
  ⟨a, "", by simp⟩

/-! ## The orchestrator -/

/-- C1: if `fetchMyIP` calls back with `(null, ip)`, `fetchCoordsByIP`
given `ip` calls back with `(null, coords)` and `fetchISSFlyOverTimes`
given `coords` calls back with `(null, passes)`, then
`nextISSTimesForMyLocation` invokes its callback exactly once, with a null
error and `passes` itself, after the three requests and nothing else. -/
theorem nextISSTimes_delivers_passes (env : Env) (ip coords passes : JsVal)
    (h1 : (fetchMyIP env record).calls = [(.null, ip)])
    (h2 : (fetchCoordsByIP env ip record).calls = [(.null, coords)])
    (h3 : (fetchISSFlyOverTimes env coords record).calls = [(.null, passes)]) :
    (nextISSTimesForMyLocation env record).calls = [(.null, passes)] ∧
    ∃ url, nextISSTimesForMyLocation env record =
      ⟨[Event.request URL, Event.requestCoord (coordsURL env ip), Event.request url,
        Event.callback .null passes], none⟩ := by
  rcases fetchMyIP_factor env with ⟨e, r, -, hf⟩ | ⟨x, hf⟩
  · rw [hf record] at h1
    simp [Run.calls, callbackArgs, settle, record] at h1
    obtain ⟨rfl, rfl⟩ := h1
    rcases fetchCoordsByIP_factor env r with ⟨lat, lon, hg⟩ | ⟨e2, hg⟩
    · rw [hg record] at h2
      simp [Run.calls, callbackArgs, thenEvents, record] at h2
      subst h2
      rcases fetchISSFlyOverTimes_factor env (.obj [("latitude", lat), ("longtitude", lon)])
        with ⟨x, hk⟩ | ⟨url, e3, r3, -, hk⟩ | ⟨url, x, hk⟩
      · rw [hk record] at h3
        simp [Run.calls, callbackArgs, Run.throw] at h3
      · rw [hk record] at h3
        simp [Run.calls, callbackArgs, settle, record] at h3
        obtain ⟨rfl, rfl⟩ := h3
        have hrun : nextISSTimesForMyLocation env record =
            ⟨[Event.request URL, Event.requestCoord (coordsURL env r), Event.request url,
              Event.callback .null r3], none⟩ := by
          simp [nextISSTimesForMyLocation, hf, hg, hk, truthy_null, settle, thenEvents, record]
        exact ⟨by rw [hrun]; rfl, url, hrun⟩
      · rw [hk record] at h3
        simp [Run.calls, callbackArgs] at h3
    · rw [hg record] at h2
      simp [Run.calls, callbackArgs, settle, record] at h2
      obtain ⟨rfl, rfl⟩ := h2
      simp [fetchISSFlyOverTimes, getProp, Run.calls, callbackArgs, Run.throw] at h3
  · rw [hf record] at h1
    simp [Run.calls, callbackArgs] at h1

/-- Short circuit on a reported error: the first stage that calls back
with a truthy error `e` ends the run; `nextISSTimesForMyLocation` hands `e`
itself and a null result to its callback, and no request of a later stage
is issued.  A stage that throws instead of calling back is not covered. -/
theorem nextISSTimes_short_circuit (env : Env) (e : JsVal) (he : truthy e = true) :
    (∀ r, (fetchMyIP env record).calls = [(e, r)] →
      nextISSTimesForMyLocation env record =
        ⟨[Event.request URL, Event.callback e .null], none⟩) ∧
    (∀ ip r, (fetchMyIP env record).calls = [(.null, ip)] →
      (fetchCoordsByIP env ip record).calls = [(e, r)] →
      nextISSTimesForMyLocation env record =
        ⟨[Event.request URL, Event.requestCoord (coordsURL env ip), Event.callback e .null],
          none⟩) ∧
    (∀ ip coords r, (fetchMyIP env record).calls = [(.null, ip)] →
      (fetchCoordsByIP env ip record).calls = [(.null, coords)] →
      (fetchISSFlyOverTimes env coords record).calls = [(e, r)] →
      ∃ url, nextISSTimesForMyLocation env record =
        ⟨[Event.request URL, Event.requestCoord (coordsURL env ip), Event.request url,
          Event.callback e .null], none⟩) := by
  have hne : e ≠ .null := by
    intro h
    rw [h] at he
    simp [truthy] at he
  refine ⟨?_, ?_, ?_⟩
  · intro r h1
    rcases fetchMyIP_factor env with ⟨e1, r1, -, hf⟩ | ⟨x, hf⟩
    · rw [hf record] at h1
      simp [Run.calls, callbackArgs, settle, record] at h1
      obtain ⟨rfl, rfl⟩ := h1
      simp [nextISSTimesForMyLocation, hf, he, settle, record]
    · rw [hf record] at h1
      simp [Run.calls, callbackArgs] at h1
  · intro ip r h1 h2
    rcases fetchMyIP_factor env with ⟨e1, r1, -, hf⟩ | ⟨x, hf⟩
    · rw [hf record] at h1
      simp [Run.calls, callbackArgs, settle, record] at h1
      obtain ⟨rfl, rfl⟩ := h1
      rcases fetchCoordsByIP_factor env r1 with ⟨lat, lon, hg⟩ | ⟨e2, hg⟩
      · rw [hg record] at h2
        simp [Run.calls, callbackArgs, thenEvents, record] at h2
        exact absurd h2.1.symm hne
      · rw [hg record] at h2
        simp [Run.calls, callbackArgs, settle, record] at h2
        obtain ⟨rfl, rfl⟩ := h2
        simp [nextISSTimesForMyLocation, hf, hg, he, truthy_null, settle, record]
    · rw [hf record] at h1
      simp [Run.calls, callbackArgs] at h1
  · intro ip coords r h1 h2 h3
    rcases fetchMyIP_factor env with ⟨e1, r1, -, hf⟩ | ⟨x, hf⟩
    · rw [hf record] at h1
      simp [Run.calls, callbackArgs, settle, record] at h1
      obtain ⟨rfl, rfl⟩ := h1
      rcases fetchCoordsByIP_factor env r1 with ⟨lat, lon, hg⟩ | ⟨e2, hg⟩
      · rw [hg record] at h2
        simp [Run.calls, callbackArgs, thenEvents, record] at h2
        subst h2
        rcases fetchISSFlyOverTimes_factor env (.obj [("latitude", lat), ("longtitude", lon)])
          with ⟨x, hk⟩ | ⟨url, e3, r3, hshape, hk⟩ | ⟨url, x, hk⟩
        · rw [hk record] at h3
          simp [Run.calls, callbackArgs, Run.throw] at h3
        · rw [hk record] at h3
          simp [Run.calls, callbackArgs, settle, record] at h3
          obtain ⟨rfl, rfl⟩ := h3
          rcases hshape with ⟨-, rfl⟩ | h0
          · exact ⟨url, by
              simp [nextISSTimesForMyLocation, hf, hg, hk, he, truthy_null, settle, thenEvents,
                record]⟩
          · exact absurd h0 hne
        · rw [hk record] at h3
          simp [Run.calls, callbackArgs] at h3
      · rw [hg record] at h2
        simp [Run.calls, callbackArgs, settle, record] at h2
        obtain ⟨rfl, rfl⟩ := h2
        simp [fetchISSFlyOverTimes, getProp, Run.calls, callbackArgs, Run.throw] at h3
    · rw [hf record] at h1
      simp [Run.calls, callbackArgs] at h1

/-- C9: when `fetchMyIP` succeeds with `ip` and the geolocation service
answers status 500 with body `server error`, the run ends with the error of
the `fetchCoordsByIP` stage: the callback receives that non-null error and a
null result, and no flyover request is issued.  The response reaches the
stage as a rejection of the promise (what `request-promise` does with a
non-2xx status) or, with the status left unchecked, as the body text, which
`JSON.parse` rejects; the statement covers both. -/
theorem nextISSTimes_geolocation_500 (env : Env) (ip : JsVal)
    (h1 : (fetchMyIP env record).calls = [(.null, ip)])
    (h500 : (∃ e, truthy e = true ∧ env.networkPromise (coordsURL env ip) = .rejected e) ∨
      (env.networkPromise (coordsURL env ip) = .resolved (.str "server error") ∧
        ∃ m, env.jsonParse "server error" = .error m)) :
    ∃ e, e ≠ .null ∧
      fetchCoordsByIP env ip record =
        ⟨[Event.requestCoord (coordsURL env ip), Event.callback e .null], none⟩ ∧
      nextISSTimesForMyLocation env record =
        ⟨[Event.request URL, Event.requestCoord (coordsURL env ip), Event.callback e .null],
          none⟩ := by
  rcases fetchMyIP_factor env with ⟨e1, r1, -, hf⟩ | ⟨x, hf⟩
  · rw [hf record] at h1
    simp [Run.calls, callbackArgs, settle, record] at h1
    obtain ⟨rfl, rfl⟩ := h1
    rcases h500 with ⟨e, he, hnet⟩ | ⟨hnet, m, hparse⟩
    · have hg := fetchCoordsByIP_rejected env r1 e hnet
      refine ⟨e, ?_, ?_, ?_⟩
      · intro h
        rw [h] at he
        simp [truthy] at he
      · simp [hg, settle, record]
      · simp [nextISSTimesForMyLocation, hf, hg, he, truthy_null, settle, record]
    · have hg := fetchCoordsByIP_unparsable env r1 (.str "server error") m hnet
        (by simpa [toStr_str] using hparse)
      refine ⟨.err "SyntaxError" m, by simp, ?_, ?_⟩
      · simp [hg, settle, record]
      · simp [nextISSTimesForMyLocation, hf, hg, truthy, settle, record]
  · rw [hf record] at h1
    simp [Run.calls, callbackArgs] at h1

/-- C10: inside `nextISSTimesForMyLocation`, when the geolocation body
parses to a value whose `latitude` is `L` and whose `longitude` is `G`, the
third request goes to the flyover endpoint with `lat` the text of `L` and
`lon` the text of `G`: the key under which `fetchCoordsByIP` stores the
longitude is the key `fetchISSFlyOverTimes` reads. -/
theorem nextISSTimes_forwards_coordinates (env : Env) (ip body parsed L G : JsVal)
    (h1 : (fetchMyIP env record).calls = [(.null, ip)])
    (hnet : env.networkPromise (coordsURL env ip) = .resolved body)
    (hparse : env.jsonParse (toStr env body) = .ok parsed)
    (hlat : getProp env parsed "latitude" = .ok L)
    (hlon : getProp env parsed "longitude" = .ok G) :
    ∃ rest, nextISSTimesForMyLocation env record =
      ⟨[Event.request URL, Event.requestCoord (coordsURL env ip),
        Event.request (flyOverURL env L G)] ++ rest, none⟩ := by
  rcases fetchMyIP_factor env with ⟨e1, r1, -, hf⟩ | ⟨x, hf⟩
  · rw [hf record] at h1
    simp [Run.calls, callbackArgs, settle, record] at h1
    obtain ⟨rfl, rfl⟩ := h1
    have hg := fetchCoordsByIP_resolved env r1 body parsed L G hnet hparse hlat hlon
    obtain ⟨rest, hk⟩ := fetchISSFlyOverTimes_request env
      (.obj [("latitude", L), ("longtitude", G)]) L G (getProp_latitude env L G)
        (getProp_longtitude env L G)
        (fun err nextPasses => if truthy err then record err .null else record .null nextPasses)
    refine ⟨rest, ?_⟩
    simp only [nextISSTimesForMyLocation, hf, truthy_null, Bool.false_eq_true, if_false, hg,
      thenEvents, hk, settle, List.cons_append, List.nil_append]
  · rw [hf record] at h1
    simp [Run.calls, callbackArgs] at h1

/-! ## The three lookups -/

/-- C5: on a response without transport error whose status code is not
200, `fetchMyIP` and `fetchISSFlyOverTimes` each call back once, with a
null result and an `Error` whose message contains the decimal status code
and the body text. -/
theorem status_error_message (env : Env) (err : JsVal) (code : Nat) (text : String)
    (herr : truthy err = false) (hcode : code ≠ 200) :
    (env.network URL = ⟨err, some ⟨code⟩, .str text⟩ →
      ∃ msg, fetchMyIP env record =
          ⟨[Event.request URL, Event.callback (.err "Error" msg) .null], none⟩ ∧
        Contains msg (toString code) ∧ Contains msg text) ∧
    (∀ coords lat lon, getProp env coords "latitude" = .ok lat →
      getProp env coords "longtitude" = .ok lon →
      env.network (flyOverURL env lat lon) = ⟨err, some ⟨code⟩, .str text⟩ →
      ∃ msg, fetchISSFlyOverTimes env coords record =
          ⟨[Event.request (flyOverURL env lat lon), Event.callback (.err "Error" msg) .null],
            none⟩ ∧
        Contains msg (toString code) ∧ Contains msg text) := by
  have hmid : Contains ("Status Code " ++ toString code ++ " when fetching IP. Response: " ++ text)
      (toString code) := by
    rw [String.append_assoc]
    exact contains_middle _ _ _
  have hend := contains_end ("Status Code " ++ toString code ++ " when fetching IP. Response: ") text
  refine ⟨fun hnet => ⟨_, ?_, hmid, hend⟩, fun coords lat lon hlat hlon hnet => ⟨_, ?_, hmid, hend⟩⟩
  · simp [fetchMyIP, request, hnet, herr, hcode, settle, record, toStr_str]
  · simp only [flyOverURL] at hnet
    simp [fetchISSFlyOverTimes, hlat, hlon, request, hnet, herr, hcode, settle, record,
      toStr_str, flyOverURL]

/-- C6 (as amended): a transport-level error `e` reported by the underlying
request is handed to the callback as it is, with a null result, by
`fetchMyIP` and by `fetchISSFlyOverTimes`, whatever response and body come
with it.  `fetchCoordsByIP` hands on, unchanged and with a null result, the
reason with which the promise is rejected: for that transport error the
`RequestError` wrapping it, whose `cause` is `e`. -/
theorem transport_error_reported (env : Env) (e : JsVal) (he : truthy e = true) :
    (∀ response body, env.network URL = ⟨e, response, body⟩ →
      fetchMyIP env record = ⟨[Event.request URL, Event.callback e .null], none⟩) ∧
    (∀ ip, env.networkPromise (coordsURL env ip) = .rejected (requestError env e) →
      fetchCoordsByIP env ip record =
          ⟨[Event.requestCoord (coordsURL env ip), Event.callback (requestError env e) .null],
            none⟩ ∧
        getProp env (requestError env e) "cause" = .ok e) ∧
    (∀ coords lat lon response body, getProp env coords "latitude" = .ok lat →
      getProp env coords "longtitude" = .ok lon →
      env.network (flyOverURL env lat lon) = ⟨e, response, body⟩ →
      fetchISSFlyOverTimes env coords record =
        ⟨[Event.request (flyOverURL env lat lon), Event.callback e .null], none⟩) := by
  refine ⟨fun response body hnet => ?_, fun ip hnet => ⟨?_, rfl⟩,
    fun coords lat lon response body hlat hlon hnet => ?_⟩
  · simp [fetchMyIP, request, hnet, he, settle, record]
  · simp [fetchCoordsByIP_rejected env ip (requestError env e) hnet, settle, record]
  · simp only [flyOverURL] at hnet
    simp [fetchISSFlyOverTimes, hlat, hlon, request, hnet, he, settle, record, flyOverURL]

/-- C8: on a status-200 response without transport error whose body parses
as a JSON object, `fetchMyIP` calls back with a null error and the value of
the object's `ip` field, and `fetchISSFlyOverTimes` calls back with a null
error and the value of the object's `response` field, as parsed. -/
theorem success_returns_parsed_field (env : Env) (err body : JsVal)
    (fields : List (String × JsVal)) (herr : truthy err = false)
    (hparse : env.jsonParse (toStr env body) = .ok (.obj fields)) :
    (env.network URL = ⟨err, some ⟨200⟩, body⟩ →
      fetchMyIP env record =
        ⟨[Event.request URL, Event.callback .null ((fields.lookup "ip").getD .undefined)],
          none⟩) ∧
    (∀ coords lat lon, getProp env coords "latitude" = .ok lat →
      getProp env coords "longtitude" = .ok lon →
      env.network (flyOverURL env lat lon) = ⟨err, some ⟨200⟩, body⟩ →
      fetchISSFlyOverTimes env coords record =
        ⟨[Event.request (flyOverURL env lat lon),
          Event.callback .null ((fields.lookup "response").getD .undefined)], none⟩) := by
  refine ⟨fun hnet => ?_, fun coords lat lon hlat hlon hnet => ?_⟩
  · simp [fetchMyIP, request, hnet, herr, hparse, getProp_obj, settle, record]
  · simp only [flyOverURL] at hnet
    simp [fetchISSFlyOverTimes, hlat, hlon, request, hnet, herr, hparse, getProp_obj, settle,
      record, flyOverURL]

/-! ## Where the code departs from its documentation -/

/-- On a status-200 response whose body `JSON.parse` rejects, `fetchMyIP`
never reaches its callback: the `SyntaxError` leaves the request callback. -/
theorem fetchMyIP_unparsable (env : Env) (err body : JsVal) (m : String)
    (hnet : env.network URL = ⟨err, some ⟨200⟩, body⟩) (herr : truthy err = false)
    (hparse : env.jsonParse (toStr env body) = .error m) :
    fetchMyIP env record =
      ⟨[Event.request URL, Event.uncaught (.err "SyntaxError" m)], none⟩ := by
  simp [fetchMyIP, request, hnet, herr, hparse, settle, Run.throw]

/-- The `lon` parameter is read from the key `longtitude`: for an object
that has only `latitude` and `longitude` it is the text `undefined`. -/
theorem fetchISSFlyOverTimes_documented_keys (env : Env) (lat lon : JsVal) (cb : Callback) :
    ∃ rest, fetchISSFlyOverTimes env (.obj [("latitude", lat), ("longitude", lon)]) cb =
      ⟨Event.request (flyOverURL env lat .undefined) :: rest, none⟩ :=
  fetchISSFlyOverTimes_request env (.obj [("latitude", lat), ("longitude", lon)]) lat .undefined
    rfl rfl cb

/-- C3 (the code departs from the claim): for the geolocation body
`sampleGeoBody`, with `latitude` 40.7 and `longitude` -74, the record
handed to the callback has the fields `latitude` and `longtitude`; its
`longitude` reads `undefined`. -/
theorem fetchCoordsByIP_misspelt_key :
    fetchCoordsByIP okEnv (.str "1.2.3.4") record =
      ⟨[Event.requestCoord "https://freegeoip.app/json/1.2.3.4",
        Event.callback .null
          (.obj [("latitude", .num ⟨407, -1⟩), ("longtitude", .num ⟨-74, 0⟩)])], none⟩ ∧
    getProp okEnv (.obj [("latitude", .num ⟨407, -1⟩), ("longtitude", .num ⟨-74, 0⟩)])
      "longitude" = .ok .undefined :=
  ⟨rfl, rfl⟩

/-- C4 (the code departs from the claim): given the coordinates object with
keys `latitude` 40.7 and `longitude` -74, the request carries `lat=40.7`
and `lon=undefined`. -/
theorem fetchISSFlyOverTimes_lon_undefined :
    fetchISSFlyOverTimes okEnv documentedCoords record =
      ⟨[Event.request "https://iss-pass.herokuapp.com/json/?lat=40.7&lon=undefined",
        Event.callback .null samplePasses], none⟩ :=
  rfl

/-- C7 (the code departs from the claim): on a status-200 response whose
body is not JSON, neither `fetchMyIP` nor `fetchISSFlyOverTimes` invokes its
callback at all; the `SyntaxError` of `JSON.parse` is left unhandled. -/
theorem unparsable_body_never_calls_back :
    fetchMyIP htmlEnv record =
      ⟨[Event.request URL, Event.uncaught (.err "SyntaxError" "Unexpected token")], none⟩ ∧
    (fetchMyIP htmlEnv record).calls = [] ∧
    fetchISSFlyOverTimes htmlEnv sampleCoords record =
      ⟨[Event.request "https://iss-pass.herokuapp.com/json/?lat=40.7&lon=-74",
        Event.uncaught (.err "SyntaxError" "Unexpected token")], none⟩ ∧
    (fetchISSFlyOverTimes htmlEnv sampleCoords record).calls = [] :=
  ⟨rfl, rfl, rfl, rfl⟩

/-- C2 (the code departs from the claim): when a stage fails by a body
that is not JSON, `nextISSTimesForMyLocation` never invokes its callback.
At `htmlEnv` the IP lookup is answered 200 with an HTML body: the run is the
IP request and an unhandled `SyntaxError`.  At `flyHtmlEnv` the same happens
in the third stage, after the three requests. -/
theorem nextISSTimes_unparsable_body_never_calls_back :
    nextISSTimesForMyLocation htmlEnv record =
      ⟨[Event.request URL, Event.uncaught (.err "SyntaxError" "Unexpected token")], none⟩ ∧
    (nextISSTimesForMyLocation htmlEnv record).calls = [] ∧
    nextISSTimesForMyLocation flyHtmlEnv record =
      ⟨[Event.request URL, Event.requestCoord "https://freegeoip.app/json/1.2.3.4",
        Event.request "https://iss-pass.herokuapp.com/json/?lat=40.7&lon=-74",
        Event.uncaught (.err "SyntaxError" "Unexpected token")], none⟩ ∧
    (nextISSTimesForMyLocation flyHtmlEnv record).calls = [] :=
  ⟨rfl, rfl, rfl, rfl⟩

/-- C6 as stated fails for `fetchCoordsByIP`: when the geolocation request
fails with the transport error `offlineError`, the callback receives the
`RequestError` that wraps it, not `offlineError` itself. -/
theorem fetchCoordsByIP_wraps_transport_error :
    fetchCoordsByIP geoOfflineEnv (.str "1.2.3.4") record =
      ⟨[Event.requestCoord "https://freegeoip.app/json/1.2.3.4",
        Event.callback (requestError geoOfflineEnv offlineError) .null], none⟩ ∧
    (fetchCoordsByIP geoOfflineEnv (.str "1.2.3.4") record).calls ≠ [(offlineError, .null)] ∧
    requestError geoOfflineEnv offlineError ≠ offlineError := by
  refine ⟨rfl, ?_, ?_⟩
  · intro h
    have h2 : [(requestError geoOfflineEnv offlineError, JsVal.null)] =
        [(offlineError, JsVal.null)] := h
    simp [requestError, offlineError] at h2
  · intro h
    simp [requestError, offlineError] at h

/-! ## Instances -/

/-- The end-to-end scenario of C1: IP `1.2.3.4`, coordinates 40.7 / -74,
two windows rising at 1600000000 and 1600050000. -/
theorem nextISSTimes_delivers_passes_witness :
    (fetchMyIP okEnv record).calls = [(.null, .str "1.2.3.4")] ∧
    (fetchCoordsByIP okEnv (.str "1.2.3.4") record).calls = [(.null, sampleCoords)] ∧
    (fetchISSFlyOverTimes okEnv sampleCoords record).calls = [(.null, samplePasses)] ∧
    (nextISSTimesForMyLocation okEnv record).calls = [(.null, samplePasses)] :=
  ⟨rfl, rfl, rfl,
    (nextISSTimes_delivers_passes okEnv (.str "1.2.3.4") sampleCoords samplePasses
      rfl rfl rfl).1⟩

/-- The short circuit at three environments: a transport failure in the
first, the second and the third stage. -/
theorem nextISSTimes_short_circuit_witness :
    truthy offlineError = true ∧
    nextISSTimesForMyLocation offlineEnv record =
      ⟨[Event.request URL, Event.callback offlineError .null], none⟩ ∧
    nextISSTimesForMyLocation geoOfflineEnv record =
      ⟨[Event.request URL, Event.requestCoord "https://freegeoip.app/json/1.2.3.4",
        Event.callback (requestError okEnv offlineError) .null], none⟩ ∧
    ∃ url, nextISSTimesForMyLocation flyOfflineEnv record =
      ⟨[Event.request URL, Event.requestCoord "https://freegeoip.app/json/1.2.3.4",
        Event.request url, Event.callback offlineError .null], none⟩ :=
  ⟨rfl,
    (nextISSTimes_short_circuit offlineEnv offlineError rfl).1 .null rfl,
    (nextISSTimes_short_circuit geoOfflineEnv (requestError okEnv offlineError) rfl).2.1
      (.str "1.2.3.4") .null rfl rfl,
    (nextISSTimes_short_circuit flyOfflineEnv offlineError rfl).2.2 (.str "1.2.3.4")
      sampleCoords .null rfl rfl rfl⟩

/-- C9 at `geo500Env` (the promise is rejected) and at `geo500BodyEnv` (the
promise resolves with the text `server error`). -/
theorem nextISSTimes_geolocation_500_witness :
    (fetchMyIP geo500Env record).calls = [(.null, .str "1.2.3.4")] ∧
    (∃ e, e ≠ .null ∧
      fetchCoordsByIP geo500Env (.str "1.2.3.4") record =
        ⟨[Event.requestCoord "https://freegeoip.app/json/1.2.3.4", Event.callback e .null],
          none⟩ ∧
      nextISSTimesForMyLocation geo500Env record =
        ⟨[Event.request URL, Event.requestCoord "https://freegeoip.app/json/1.2.3.4",
          Event.callback e .null], none⟩) ∧
    (∃ e, e ≠ .null ∧
      fetchCoordsByIP geo500BodyEnv (.str "1.2.3.4") record =
        ⟨[Event.requestCoord "https://freegeoip.app/json/1.2.3.4", Event.callback e .null],
          none⟩ ∧
      nextISSTimesForMyLocation geo500BodyEnv record =
        ⟨[Event.request URL, Event.requestCoord "https://freegeoip.app/json/1.2.3.4",
          Event.callback e .null], none⟩) :=
  ⟨rfl,
    nextISSTimes_geolocation_500 geo500Env (.str "1.2.3.4") rfl
      (Or.inl ⟨.err "StatusCodeError" "500 - \"server error\"", rfl, rfl⟩),
    nextISSTimes_geolocation_500 geo500BodyEnv (.str "1.2.3.4") rfl
      (Or.inr ⟨rfl, "Unexpected token", rfl⟩)⟩

/-- C10 at `okEnv`: the flyover request carries `lat=40.7` and `lon=-74`. -/
theorem nextISSTimes_forwards_coordinates_witness :
    ∃ rest, nextISSTimesForMyLocation okEnv record =
      ⟨[Event.request URL, Event.requestCoord "https://freegeoip.app/json/1.2.3.4",
        Event.request "https://iss-pass.herokuapp.com/json/?lat=40.7&lon=-74"] ++ rest, none⟩ :=
  nextISSTimes_forwards_coordinates okEnv (.str "1.2.3.4") (.str sampleGeoBody)
    (.obj [("latitude", .num ⟨407, -1⟩), ("longitude", .num ⟨-74, 0⟩)])
    (.num ⟨407, -1⟩) (.num ⟨-74, 0⟩) rfl rfl rfl rfl rfl

/-- C5 at `unavailableEnv`: status 503, body `Service Unavailable`. -/
theorem status_error_message_witness :
    truthy .null = false ∧ (503 : Nat) ≠ 200 ∧
    (∃ msg, fetchMyIP unavailableEnv record =
        ⟨[Event.request URL, Event.callback (.err "Error" msg) .null], none⟩ ∧
      Contains msg "503" ∧ Contains msg "Service Unavailable") ∧
    (∃ msg, fetchISSFlyOverTimes unavailableEnv sampleCoords record =
        ⟨[Event.request "https://iss-pass.herokuapp.com/json/?lat=40.7&lon=-74",
          Event.callback (.err "Error" msg) .null], none⟩ ∧
      Contains msg "503" ∧ Contains msg "Service Unavailable") :=
  ⟨rfl, by decide,
    (status_error_message unavailableEnv .null 503 "Service Unavailable" rfl (by decide)).1 rfl,
    (status_error_message unavailableEnv .null 503 "Service Unavailable" rfl (by decide)).2
      sampleCoords (.num ⟨407, -1⟩) (.num ⟨-74, 0⟩) rfl rfl rfl⟩

/-- C6 (as amended) at the three environments in which one lookup fails at
the transport level. -/
theorem transport_error_reported_witness :
    truthy offlineError = true ∧
    fetchMyIP offlineEnv record =
      ⟨[Event.request URL, Event.callback offlineError .null], none⟩ ∧
    (fetchCoordsByIP geoOfflineEnv (.str "1.2.3.4") record =
        ⟨[Event.requestCoord "https://freegeoip.app/json/1.2.3.4",
          Event.callback (requestError geoOfflineEnv offlineError) .null], none⟩ ∧
      getProp geoOfflineEnv (requestError geoOfflineEnv offlineError) "cause" =
        .ok offlineError) ∧
    fetchISSFlyOverTimes flyOfflineEnv sampleCoords record =
      ⟨[Event.request "https://iss-pass.herokuapp.com/json/?lat=40.7&lon=-74",
        Event.callback offlineError .null], none⟩ :=
  ⟨rfl,
    (transport_error_reported offlineEnv offlineError rfl).1 none .undefined rfl,
    (transport_error_reported geoOfflineEnv offlineError rfl).2.1 (.str "1.2.3.4") rfl,
    (transport_error_reported flyOfflineEnv offlineError rfl).2.2 sampleCoords
      (.num ⟨407, -1⟩) (.num ⟨-74, 0⟩) none .undefined rfl rfl rfl⟩

/-- C8 at `okEnv`: the IP `1.2.3.4` and the two sample windows. -/
theorem success_returns_parsed_field_witness :
    truthy .null = false ∧
    fetchMyIP okEnv record =
      ⟨[Event.request URL, Event.callback .null (.str "1.2.3.4")], none⟩ ∧
    fetchISSFlyOverTimes okEnv sampleCoords record =
      ⟨[Event.request "https://iss-pass.herokuapp.com/json/?lat=40.7&lon=-74",
        Event.callback .null samplePasses], none⟩ :=
  ⟨rfl,
    (success_returns_parsed_field okEnv .null (.str sampleIpBody)
      [("ip", .str "1.2.3.4")] rfl rfl).1 rfl,
    (success_returns_parsed_field okEnv .null (.str sampleFlyBody)
      [("message", .str "success"), ("response", samplePasses)] rfl rfl).2
      sampleCoords (.num ⟨407, -1⟩) (.num ⟨-74, 0⟩) rfl rfl rfl⟩

end IssSpotter
